import Mathlib

/-!
Shallow embedding of the ML core of the `purchase_dashboard` repository
(`app/ml/anomaly_detector.py`, `app/ml/personality_analyzer.py`,
`app/analytics.py`), together with theorems settling the specification
claims about it.

Conventions of the embedding:
* pandas dataframes of purchase events become `List Event`;
* Python floats become `ℚ` (all arithmetic in the modelled code is exact
  on the inputs we reason about);
* timestamps are rational numbers of hours since an epoch falling on a
  Monday at midnight, so `hour = ⌊t⌋ % 24` and `weekday = ⌊t/24⌋ % 7`;
* Python dicts with string keys become association lists
  `List (String × ℚ)` read through `fget` (= `dict.get(k, d)`);
* `datetime.now()` is passed in explicitly as a parameter `now`;
* Python's `sorted(xs, key=k, reverse=True)` (a stable sort) is embedded
  by the stable insertion sort `sortBy` below.
-/

namespace PurchaseDashboard

/-- Stable insertion of `x` into `l`: `x` is placed before the first
element `y` with `le x y`.  Used to embed Python's stable `sorted`. -/
def insBy (le : α → α → Bool) (x : α) : List α → List α
  | [] => [x]
  | y :: ys => if le x y then x :: y :: ys else y :: insBy le x ys

/-- Stable insertion sort.  With `le x y := key x ≤ key y` this is
Python's `sorted(l, key=key)`; with `le x y := key y ≤ key x` it is
`sorted(l, key=key, reverse=True)` (both are stable). -/
def sortBy (le : α → α → Bool) (l : List α) : List α :=
  l.foldr (insBy le) []

theorem insBy_perm (le : α → α → Bool) (x : α) (l : List α) :
    List.Perm (insBy le x l) (x :: l) := by
  induction l with
  | nil => simp [insBy]
  | cons y ys ih =>
      simp only [insBy]
      split
      · exact List.Perm.refl _
      · exact (List.Perm.cons y ih).trans (List.Perm.swap x y ys)

theorem sortBy_perm (le : α → α → Bool) (l : List α) : List.Perm (sortBy le l) l := by
  induction l with
  | nil => exact List.Perm.refl _
  | cons x xs ih =>
      exact (insBy_perm le x (sortBy le xs)).trans (List.Perm.cons x ih)

theorem insBy_pairwise (le : α → α → Bool)
    (htot : ∀ a b, le a b = true ∨ le b a = true)
    (htrans : ∀ a b c, le a b = true → le b c = true → le a c = true)
    (x : α) (l : List α) (hl : l.Pairwise (fun a b => le a b = true)) :
    (insBy le x l).Pairwise (fun a b => le a b = true) := by
  induction l with
  | nil => simp [insBy]
  | cons y ys ih =>
      simp only [insBy]
      rcases hl with _ | ⟨hy, hys⟩
      split
      · rename_i hxy
        refine List.Pairwise.cons ?_ (List.Pairwise.cons hy hys)
        intro z hz
        rcases List.mem_cons.mp hz with rfl | hz
        · exact hxy
        · exact htrans x y z hxy (hy z hz)
      · rename_i hxy
        have hyx : le y x = true := by
          rcases htot x y with h | h
          · exact absurd h hxy
          · exact h
        refine List.Pairwise.cons ?_ (ih hys)
        intro z hz
        have hz' := (insBy_perm le x ys).mem_iff.mp hz
        rcases List.mem_cons.mp hz' with rfl | hz'
        · exact hyx
        · exact hy z hz'

theorem sortBy_pairwise (le : α → α → Bool)
    (htot : ∀ a b, le a b = true ∨ le b a = true)
    (htrans : ∀ a b c, le a b = true → le b c = true → le a c = true)
    (l : List α) :
    (sortBy le l).Pairwise (fun a b => le a b = true) := by
  induction l with
  | nil => simp [sortBy]
  | cons x xs ih => exact insBy_pairwise le htot htrans x (sortBy le xs) ih

theorem insBy_filter (le : α → α → Bool) (p : α → Bool)
    (hp : ∀ a b, p a = true → p b = true → le a b = true)
    (x : α) (l : List α) :
    (insBy le x l).filter p = (x :: l).filter p := by
  induction l with
  | nil => simp [insBy]
  | cons y ys ih =>
      simp only [insBy]
      split
      · rfl
      · rename_i hxy
        by_cases hpx : p x = true
        · have hpy : p y = false := by
            by_contra hpy
            exact hxy (hp x y hpx (by simpa using hpy))
          simp [List.filter_cons, hpx, hpy, ih]
        · have hpx' : p x = false := by simpa using hpx
          simp [List.filter_cons, hpx', ih]

theorem sortBy_filter (le : α → α → Bool) (p : α → Bool)
    (hp : ∀ a b, p a = true → p b = true → le a b = true)
    (l : List α) :
    (sortBy le l).filter p = l.filter p := by
  induction l with
  | nil => rfl
  | cons x xs ih =>
      have h := insBy_filter le p hp x (sortBy le xs)
      simp only [sortBy, List.foldr_cons] at *
      rw [h]
      simp [List.filter_cons, ih]

/-- An element whose "score class" (elements `z` with `le z x`, i.e. able
to stand before `x` in the descending order) contains at most `n`
elements of `l` survives truncation of the sorted list to `n` items. -/
theorem mem_take_sortBy (le : α → α → Bool)
    (htot : ∀ a b, le a b = true ∨ le b a = true)
    (htrans : ∀ a b c, le a b = true → le b c = true → le a c = true)
    (l : List α) (x : α) (n : ℕ)
    (hx : x ∈ l) (hcount : l.countP (fun z => le z x) ≤ n) :
    x ∈ (sortBy le l).take n := by
  have hperm := sortBy_perm le l
  have hxs : x ∈ sortBy le l := hperm.mem_iff.mpr hx
  obtain ⟨s₁, s₂, hsplit⟩ := List.append_of_mem hxs
  have hpw := sortBy_pairwise le htot htrans l
  rw [hsplit] at hpw
  have hbefore : ∀ z ∈ s₁, le z x = true := by
    intro z hz
    have := (List.pairwise_append.mp hpw).2.2 z hz x (List.mem_cons_self _ _)
    exact this
  have hcount' : (sortBy le l).countP (fun z => le z x) ≤ n := by
    rw [hperm.countP_eq]
    exact hcount
  rw [hsplit] at hcount'
  have hxx : le x x = true := by
    rcases htot x x with h | h <;> exact h
  have hlen : s₁.length + 1 ≤ n := by
    have h1 : s₁.countP (fun z => le z x) = s₁.length := by
      rw [List.countP_eq_length]
      intro z hz
      exact hbefore z hz
    have h2 : (s₁ ++ x :: s₂).countP (fun z => le z x)
        = s₁.countP (fun z => le z x) + (x :: s₂).countP (fun z => le z x) :=
      List.countP_append _ _ _
    have h3 : (x :: s₂).countP (fun z => le z x)
        = s₂.countP (fun z => le z x) + 1 := by
      rw [List.countP_cons]
      simp [hxx]
    omega
  rw [hsplit]
  have : (s₁ ++ x :: s₂).take n = s₁ ++ (x :: s₂).take (n - s₁.length) := by
    rw [List.take_append_eq_append_take]
    congr 1
    rw [List.take_of_length_le]
    omega
  rw [this]
  refine List.mem_append_right _ ?_
  have : n - s₁.length ≥ 1 := by omega
  rcases Nat.exists_eq_add_of_le this with ⟨k, hk⟩
  rw [hk]
  simp [List.take_cons]

/-- One purchase event (a row of the pandas dataframe): columns `name`,
`type` (category), `price`, `cnt`, `timestamp` (hours since an epoch
placed on a Monday at midnight). -/
structure Event where
  name : String
  type : String
  price : ℚ
  cnt : ℚ
  timestamp : ℚ
deriving DecidableEq

/-- Lookup in an association list embedding `dict.get(k, d)`. -/
def fget : List (String × ℚ) → String → ℚ → ℚ
  | [], _, d => d
  | p :: rest, k, d => if p.1 == k then p.2 else fget rest k d

/-- Mean of a list of rationals (`Series.mean`, call sites guard
non-emptiness). -/
def qmean (l : List ℚ) : ℚ := l.sum / l.length

/-- Sample variance with `ddof = 1`, the default of pandas `Series.var`
(call sites guard `len > 1`). -/
def svar (l : List ℚ) : ℚ :=
  (l.map (fun x => (x - qmean l) ^ 2)).sum / ((l.length : ℚ) - 1)

/-- Minimum of a list (`Series.min`; call sites guard non-emptiness). -/
def qmin : List ℚ → ℚ
  | [] => 0
  | x :: xs => xs.foldl min x

/-- Maximum of a list (`Series.max`; call sites guard non-emptiness). -/
def qmax : List ℚ → ℚ
  | [] => 0
  | x :: xs => xs.foldl max x

/-- Hour of day of a timestamp, `pd.to_datetime(ts).dt.hour`. -/
def hourOf (t : ℚ) : ℚ := ((⌊t⌋ % 24 : ℤ) : ℚ)

/-- Weekday index of a timestamp, `pd.to_datetime(ts).dt.weekday`
(epoch is a Monday). -/
def weekdayOf (t : ℚ) : ℚ := ((⌊t / 24⌋ % 7 : ℤ) : ℚ)

/-- `df['price'] * df['cnt']` summed: total spend of a window. -/
def totalSpent (l : List Event) : ℚ := (l.map (fun e => e.price * e.cnt)).sum

/-- Number of events of category `c`. -/
def countType (l : List Event) (c : String) : ℕ :=
  (l.filter (fun e => e.type == c)).length

/-- `value_counts(normalize=True).get(c, 0) * 100`: share (in percent,
by row count) of category `c` in the window. -/
def catRatio (l : List Event) (c : String) : ℚ :=
  ((countType l c : ℚ) / l.length) * 100

/-- Distinct values of `df['name']` (`Series.nunique`). -/
def nuniqueNames (l : List Event) : ℕ := (l.map (fun e => e.name)).dedup.length

/-- Distinct values of `df['type']` (`Series.nunique`). -/
def nuniqueTypes (l : List Event) : ℕ := (l.map (fun e => e.type)).dedup.length

/-- Events sorted (stably) by timestamp: `df.sort_values('timestamp')`. -/
def sortByTs (l : List Event) : List Event :=
  sortBy (fun a b => decide (a.timestamp ≤ b.timestamp)) l

/-- Gaps (in hours) between consecutive timestamps, the non-NaN entries
of `ts.diff().dt.total_seconds() / 3600`. -/
def consecDiffs : List ℚ → List ℚ
  | [] => []
  | [_] => []
  | x :: y :: rest => (y - x) :: consecDiffs (y :: rest)

/-- `AnomalyDetector._get_default_period_features` (anomaly_detector.py
lines 211-223). -/
def defaultPeriodFeatures : List (String × ℚ) :=
  [("total_spent", 0), ("total_purchases", 0), ("avg_amount", 0),
   ("time_variance", 0), ("weekday_variance", 0), ("avg_interval", 24),
   ("min_interval", 24), ("price_variance", 0), ("price_range", 0),
   ("impulse_score", 0), ("unique_items", 0), ("unique_categories", 0),
   ("간식_ratio", 0), ("오락_ratio", 0), ("장난감_ratio", 0),
   ("교육_ratio", 0), ("기타_ratio", 0)]

/-- `AnomalyDetector._calculate_period_features` (anomaly_detector.py
lines 108-161): per-window feature dict, in the source's insertion
order. -/
def periodFeatures (l : List Event) : List (String × ℚ) :=
  if l = [] then defaultPeriodFeatures
  else
    let n : ℕ := l.length
    let total_spent := totalSpent l
    let avg_amount := if 0 < n then total_spent / n else 0
    let hours := l.map (fun e => hourOf e.timestamp)
    let weekdays := l.map (fun e => weekdayOf e.timestamp)
    let time_variance := if 1 < n then svar hours else 0
    let weekday_variance := if 1 < n then svar weekdays else 0
    let diffs := consecDiffs ((sortByTs l).map (fun e => e.timestamp))
    let avg_interval := if 1 < n then qmean diffs else 24
    let min_interval := if 1 < n then qmin diffs else 24
    let prices := l.map (fun e => e.price)
    let price_variance := if 1 < n then svar prices else 0
    let price_range := if 1 < n then qmax prices - qmin prices else 0
    let impulse_score :=
      if 0 < n then ((diffs.filter (fun d => decide (d < 1))).length : ℚ) / n
      else 0
    [("total_spent", total_spent), ("total_purchases", (n : ℚ)),
     ("avg_amount", avg_amount), ("time_variance", time_variance),
     ("weekday_variance", weekday_variance), ("avg_interval", avg_interval),
     ("min_interval", min_interval), ("price_variance", price_variance),
     ("price_range", price_range), ("impulse_score", impulse_score),
     ("unique_items", (nuniqueNames l : ℚ)),
     ("unique_categories", (nuniqueTypes l : ℚ)),
     ("간식_ratio", catRatio l "간식"), ("오락_ratio", catRatio l "오락"),
     ("장난감_ratio", catRatio l "장난감"), ("교육_ratio", catRatio l "교육"),
     ("기타_ratio", catRatio l "기타")]

/-- Percentage change of one metric (anomaly_detector.py lines 172-181):
relative change when the baseline is nonzero, else 100 for growth from
zero and 0 when nothing changed. -/
def changeVal (recentVal historicalVal : ℚ) : ℚ :=
  if historicalVal ≠ 0 then (recentVal - historicalVal) / historicalVal * 100
  else if 0 < recentVal then 100 else 0

/-- `AnomalyDetector._calculate_change_features` (anomaly_detector.py
lines 163-189), with the two source loops unrolled over their fixed
metric / category lists. -/
def changeFeatures (recent historical : List (String × ℚ)) : List (String × ℚ) :=
  [("total_spent_change",
      changeVal (fget recent "total_spent" 0) (fget historical "total_spent" 0)),
   ("total_purchases_change",
      changeVal (fget recent "total_purchases" 0) (fget historical "total_purchases" 0)),
   ("avg_amount_change",
      changeVal (fget recent "avg_amount" 0) (fget historical "avg_amount" 0)),
   ("time_variance_change",
      changeVal (fget recent "time_variance" 0) (fget historical "time_variance" 0)),
   ("avg_interval_change",
      changeVal (fget recent "avg_interval" 0) (fget historical "avg_interval" 0)),
   ("price_variance_change",
      changeVal (fget recent "price_variance" 0) (fget historical "price_variance" 0)),
   ("impulse_score_change",
      changeVal (fget recent "impulse_score" 0) (fget historical "impulse_score" 0)),
   ("간식_shift", fget recent "간식_ratio" 0 - fget historical "간식_ratio" 0),
   ("오락_shift", fget recent "오락_ratio" 0 - fget historical "오락_ratio" 0),
   ("장난감_shift", fget recent "장난감_ratio" 0 - fget historical "장난감_ratio" 0),
   ("교육_shift", fget recent "교육_ratio" 0 - fget historical "교육_ratio" 0),
   ("기타_shift", fget recent "기타_ratio" 0 - fget historical "기타_ratio" 0)]

/-- `AnomalyDetector._get_default_behavioral_features` (anomaly_detector.py
lines 191-209), keys in the source's insertion order. -/
def defaultBehavioralFeatures : List (String × ℚ) :=
  [("total_spent", 0), ("total_purchases", 0), ("avg_amount", 0),
   ("time_variance", 0), ("weekday_variance", 0), ("avg_interval", 24),
   ("min_interval", 24), ("price_variance", 0), ("price_range", 0),
   ("impulse_score", 0), ("unique_items", 0), ("unique_categories", 0),
   ("data_availability", 0),
   ("간식_ratio", 0), ("간식_shift", 0), ("오락_ratio", 0), ("오락_shift", 0),
   ("장난감_ratio", 0), ("장난감_shift", 0), ("교육_ratio", 0), ("교육_shift", 0),
   ("기타_ratio", 0), ("기타_shift", 0),
   ("total_spent_change", 0), ("total_purchases_change", 0),
   ("avg_amount_change", 0), ("time_variance_change", 0),
   ("avg_interval_change", 0), ("price_variance_change", 0),
   ("impulse_score_change", 0)]

/-- The recent window: events with `timestamp >= now - window_days`
(anomaly_detector.py line 82). -/
def recentOf (l : List Event) (now windowDays : ℚ) : List Event :=
  l.filter (fun e => decide (now - windowDays * 24 ≤ e.timestamp))

/-- The historical window: events with `timestamp < now - window_days`
(anomaly_detector.py line 83). -/
def histOf (l : List Event) (now windowDays : ℚ) : List Event :=
  l.filter (fun e => decide (e.timestamp < now - windowDays * 24))

/-- `AnomalyDetector.extract_behavioral_features` (anomaly_detector.py
lines 73-106).  `now` stands for `datetime.now()`. -/
def extract_behavioral_features (l : List Event) (now : ℚ)
    (windowDays : ℚ := 7) : List (String × ℚ) :=
  if l = [] then defaultBehavioralFeatures
  else
    let recent := recentOf l now windowDays
    let historical := histOf l now windowDays
    if recent = [] then defaultBehavioralFeatures
    else
      let recentFeatures := periodFeatures recent
      let changes :=
        if historical = [] then []
        else changeFeatures recentFeatures (periodFeatures historical)
      recentFeatures ++ changes ++
        [("data_availability",
           if 0 < l.length then (historical.length : ℚ) / l.length else 0)]

/-- One anomaly finding as appended by `_detect_rule_based_anomalies` /
`_detect_ml_based_anomalies`: a dict with keys `type`, `severity`,
`confidence`, `details`, `timestamp`. -/
structure Finding where
  type : String
  severity : String
  confidence : ℚ
  details : String
  timestamp : ℚ
deriving DecidableEq

/-- Display formatting to one decimal place, standing in for the
f-string `:.1f` inside the free-form `details` messages (no claim
depends on its exact rounding of halves). -/
def fmt1 (q : ℚ) : String :=
  let n : ℤ := ⌊q * 10 + 1 / 2⌋
  (if n < 0 then "-" else "") ++ toString (n.natAbs / 10) ++ "." ++
    toString (n.natAbs % 10)

/-- Display formatting for the f-string `:+.1f` (explicit sign). -/
def fmtp1 (q : ℚ) : String := if q < 0 then fmt1 q else "+" ++ fmt1 q

/-- One iteration of the category loop of `_detect_rule_based_anomalies`
(anomaly_detector.py lines 314-324): a `category_shift` finding when the
ratio moved by more than 30 percentage points. -/
def categoryShiftFinding (features : List (String × ℚ)) (now : ℚ)
    (c : String) : List Finding :=
  let shift := fget features (c ++ "_shift") 0
  if 30 < |shift| then
    [⟨"category_shift", "info", min (|shift| / 50) 1,
      c ++ " 카테고리 비중이 " ++ fmtp1 shift ++ "% 변화했습니다", now⟩]
  else []

/-- `AnomalyDetector._detect_rule_based_anomalies` (anomaly_detector.py
lines 288-365), with the category loop unrolled over the fixed category
list.  `now` stands for `datetime.now()`. -/
def detect_rule_based_anomalies (features : List (String × ℚ))
    (now : ℚ) : List Finding :=
  let spending_change := fget features "total_spent_change" 0
  let a1 : List Finding :=
    if 200 < spending_change then
      [⟨"spending_spike", "warning", min (spending_change / 300) 1,
        "지출이 " ++ fmt1 spending_change ++ "% 증가했습니다", now⟩]
    else []
  let frequency_change := fget features "total_purchases_change" 0
  let a2 : List Finding :=
    if 150 < |frequency_change| then
      [⟨"frequency_change", "warning", min (|frequency_change| / 200) 1,
        "구매 빈도가 " ++ fmt1 frequency_change ++ "% 변화했습니다", now⟩]
    else []
  let a3 : List Finding :=
    categoryShiftFinding features now "간식" ++
    categoryShiftFinding features now "오락" ++
    categoryShiftFinding features now "장난감" ++
    categoryShiftFinding features now "교육" ++
    categoryShiftFinding features now "기타"
  let impulse_score := fget features "impulse_score" 0
  let a4 : List Finding :=
    if 3 / 10 < impulse_score then
      [⟨"impulse_buying", "warning", min (impulse_score / (1 / 2)) 1,
        "구매의 " ++ fmt1 (impulse_score * 100) ++
          "%가 짧은 시간 내에 발생했습니다", now⟩]
    else []
  let time_variance_change := fget features "time_variance_change" 0
  let a5 : List Finding :=
    if 100 < |time_variance_change| then
      [⟨"time_pattern_shift", "info", min (|time_variance_change| / 150) 1,
        "구매 시간 패턴이 평소와 다릅니다", now⟩]
    else []
  let emotional_indicators : ℕ :=
    (if 1 / 4 < impulse_score then 1 else 0) +
    (if 150 < spending_change then 1 else 0) +
    (if 20 < fget features "간식_shift" 0 then 1 else 0) +
    (if fget features "min_interval" 24 < 2 then 1 else 0)
  let a6 : List Finding :=
    if 2 ≤ emotional_indicators then
      [⟨"emotional_shopping", "alert", (emotional_indicators : ℚ) / 4,
        "감정적 변화로 인한 소비 패턴이 감지되었습니다", now⟩]
    else []
  a1 ++ a2 ++ a3 ++ a4 ++ a5 ++ a6

/-- `severity_order.get(severity, 0)` with
`severity_order = {'alert': 3, 'warning': 2, 'info': 1}` (line 396). -/
def severityRank (s : String) : ℕ :=
  if s == "alert" then 3 else if s == "warning" then 2
  else if s == "info" then 1 else 0

/-- The sort key `(severity_order.get(severity, 0), confidence)`. -/
def findingKey (f : Finding) : ℕ × ℚ := (severityRank f.severity, f.confidence)

/-- Lexicographic order on the sort key, the order Python's tuple
comparison uses for `(rank, confidence)`. -/
def keyLE (a b : ℕ × ℚ) : Prop := a.1 < b.1 ∨ (a.1 = b.1 ∧ a.2 ≤ b.2)

instance (a b : ℕ × ℚ) : Decidable (keyLE a b) := by
  unfold keyLE
  infer_instance

theorem keyLE_total (a b : ℕ × ℚ) : keyLE a b ∨ keyLE b a := by
  unfold keyLE
  rcases lt_trichotomy a.1 b.1 with h | h | h
  · exact Or.inl (Or.inl h)
  · rcases le_total a.2 b.2 with h2 | h2
    · exact Or.inl (Or.inr ⟨h, h2⟩)
    · exact Or.inr (Or.inr ⟨h.symm, h2⟩)
  · exact Or.inr (Or.inl h)

theorem keyLE_trans (a b c : ℕ × ℚ) (h1 : keyLE a b) (h2 : keyLE b c) :
    keyLE a c := by
  unfold keyLE at *
  rcases h1 with h1 | ⟨h1, h1'⟩ <;> rcases h2 with h2 | ⟨h2, h2'⟩
  · exact Or.inl (h1.trans h2)
  · exact Or.inl (h2 ▸ h1)
  · exact Or.inl (h1 ▸ h2)
  · exact Or.inr ⟨h1.trans h2, h1'.trans h2'⟩

/-- The comparator embedding
`sorted(anomalies, key=(rank, confidence), reverse=True)`: element `x`
may stand before `y` exactly when `y`'s key is at most `x`'s key. -/
def findingGE (x y : Finding) : Bool := decide (keyLE (findingKey y) (findingKey x))

/-- `AnomalyDetector._deduplicate_and_prioritize` (anomaly_detector.py
lines 390-406): stable sort by severity rank then confidence, both
descending, then keep at most 5 findings. -/
def deduplicate_and_prioritize (anomalies : List Finding) : List Finding :=
  if anomalies = [] then []
  else (sortBy findingGE anomalies).take 5

/-- `AnomalyDetector._calculate_risk_level` (lines 408-423). -/
def calculateRiskLevel (anomalies : List Finding) : String :=
  if anomalies = [] then "low"
  else
    let alert_count := (anomalies.filter (fun a => a.severity == "alert")).length
    let warning_count := (anomalies.filter (fun a => a.severity == "warning")).length
    if 0 < alert_count then "high"
    else if 2 ≤ warning_count then "medium"
    else if 0 < warning_count then "medium"
    else "low"

/-- `AnomalyDetector._generate_summary` (lines 425-438). -/
def generateSummary (anomalies : List Finding) : String :=
  if anomalies = [] then "정상적인 구매 패턴을 보이고 있습니다."
  else
    let alert_count := (anomalies.filter (fun a => a.severity == "alert")).length
    let warning_count := (anomalies.filter (fun a => a.severity == "warning")).length
    if 0 < alert_count then
      "주의가 필요한 " ++ toString alert_count ++ "개의 패턴이 감지되었습니다."
    else if 0 < warning_count then
      toString warning_count ++ "개의 변화 패턴이 관찰되었습니다."
    else "일부 변화가 있지만 정상 범위 내입니다."

/-- Add a string to the recommendation collection; embeds insertion into
the Python `set` (kept here in insertion order; CPython's `list(set)`
order is hash-table order, which no claim depends on). -/
def addRec (acc : List String) (s : String) : List String :=
  if s ∈ acc then acc else acc ++ [s]

/-- The fixed recommendation strings per anomaly type
(`_generate_recommendations`, lines 444-466). -/
def recsFor (t : String) : List String :=
  if t == "spending_spike" then
    ["예산 한도를 다시 검토해보세요", "아이와 소비 계획을 함께 세워보세요"]
  else if t == "impulse_buying" then
    ["구매 전 잠시 생각할 시간을 가져보세요",
     "구매 목록을 미리 작성하는 습관을 만들어보세요"]
  else if t == "emotional_shopping" then
    ["아이의 감정 상태를 살펴보세요", "스트레스나 변화가 있었는지 확인해보세요",
     "감정을 표현할 다른 방법을 찾아보세요"]
  else if t == "category_shift" then
    ["새로운 관심사가 생겼는지 대화해보세요", "카테고리 균형을 맞춰보세요"]
  else if t == "frequency_change" then
    ["구매 패턴의 변화 원인을 파악해보세요", "규칙적인 구매 스케줄을 만들어보세요"]
  else []

/-- `AnomalyDetector._generate_recommendations` (lines 440-472). -/
def generateRecommendations (anomalies : List Finding) : List String :=
  let base := anomalies.foldl (fun acc a => (recsFor a.type).foldl addRec acc) []
  if anomalies = [] then base
  else addRec base "정기적으로 구매 패턴을 리뷰해보세요"

/-- The dict returned by `AnomalyDetector.detect_anomalies`
(lines 277-284). -/
structure DetectionResult where
  anomalies_detected : Bool
  anomaly_count : ℕ
  anomalies : List Finding
  risk_level : String
  summary : String
  recommendations : List String
deriving DecidableEq

/-- `AnomalyDetector.detect_anomalies` (anomaly_detector.py lines
256-286).  `now` stands for `datetime.now()`; `mlAnomalies` stands for
the output of the `_detect_ml_based_anomalies` block, which is `[]`
whenever no persisted outlier model exists (`_load_anomaly_models`
raises and the bare `except` swallows it). -/
def detect_anomalies (l : List Event) (now : ℚ)
    (mlAnomalies : List Finding := []) : DetectionResult :=
  let features := extract_behavioral_features l now 7
  let ruleBased := detect_rule_based_anomalies features now
  let allAnomalies := ruleBased ++ mlAnomalies
  let uniques := deduplicate_and_prioritize allAnomalies
  ⟨decide (0 < uniques.length), uniques.length, uniques,
   calculateRiskLevel uniques, generateSummary uniques,
   generateRecommendations uniques⟩

/-- Category spend ratio of `PersonalityAnalyzer.extract_features`
(personality_analyzer.py lines 69-79): the category's plain `price` sum
divided by the overall `price*cnt` total, times 100 (the source divides
an unweighted price sum by the quantity-weighted total). -/
def pCatRatio (l : List Event) (c : String) : ℚ :=
  if 0 < totalSpent l then
    ((l.filter (fun e => e.type == c)).map (fun e => e.price)).sum
      / totalSpent l * 100
  else 0

/-- Category purchase-count share of `extract_features`. -/
def pCatFreq (l : List Event) (c : String) : ℚ :=
  if 0 < l.length then (countType l c : ℚ) / l.length * 100 else 0

/-- Sizes of `df.groupby('weekday').size()`: one count per distinct
weekday value occurring in the data. -/
def weekdayGroupSizes (l : List Event) : List ℚ :=
  ((l.map (fun e => weekdayOf e.timestamp)).dedup).map
    (fun w => ((l.filter (fun e => weekdayOf e.timestamp == w)).length : ℚ))

/-- `PersonalityAnalyzer._get_default_features` (personality_analyzer.py
lines 115-132). -/
def pDefaultFeatures : List (String × ℚ) :=
  [("avg_purchase_amount", 0), ("total_purchases", 0), ("diversity_score", 0),
   ("price_variance", 0), ("weekday_variance", 0), ("morning_ratio", 0),
   ("afternoon_ratio", 0), ("evening_ratio", 0),
   ("간식_ratio", 0), ("간식_frequency", 0), ("오락_ratio", 0),
   ("오락_frequency", 0), ("장난감_ratio", 0), ("장난감_frequency", 0),
   ("교육_ratio", 0), ("교육_frequency", 0), ("기타_ratio", 0),
   ("기타_frequency", 0)]

/-- `PersonalityAnalyzer.extract_features` (personality_analyzer.py lines
53-113), with the category loop unrolled over the fixed category list. -/
def extract_features (l : List Event) : List (String × ℚ) :=
  if l = [] then pDefaultFeatures
  else
    let total_amount := totalSpent l
    let n : ℕ := l.length
    let avg_amount := if 0 < n then total_amount / n else 0
    let hours := l.map (fun e => hourOf e.timestamp)
    let morning := (hours.filter (fun h => decide (6 ≤ h ∧ h ≤ 11))).length
    let afternoon := (hours.filter (fun h => decide (12 ≤ h ∧ h ≤ 17))).length
    let evening := (hours.filter (fun h => decide (18 ≤ h ∧ h ≤ 23))).length
    let diversity := if 0 < n then (nuniqueNames l : ℚ) / n else 0
    let price_variance := if 1 < n then svar (l.map (fun e => e.price)) else 0
    let weekday_variance := if 6 < n then svar (weekdayGroupSizes l) else 0
    [("avg_purchase_amount", avg_amount), ("total_purchases", (n : ℚ)),
     ("diversity_score", diversity), ("price_variance", price_variance),
     ("weekday_variance", weekday_variance),
     ("morning_ratio", if 0 < n then (morning : ℚ) / n * 100 else 0),
     ("afternoon_ratio", if 0 < n then (afternoon : ℚ) / n * 100 else 0),
     ("evening_ratio", if 0 < n then (evening : ℚ) / n * 100 else 0),
     ("간식_ratio", pCatRatio l "간식"), ("간식_frequency", pCatFreq l "간식"),
     ("오락_ratio", pCatRatio l "오락"), ("오락_frequency", pCatFreq l "오락"),
     ("장난감_ratio", pCatRatio l "장난감"),
     ("장난감_frequency", pCatFreq l "장난감"),
     ("교육_ratio", pCatRatio l "교육"), ("교육_frequency", pCatFreq l "교육"),
     ("기타_ratio", pCatRatio l "기타"), ("기타_frequency", pCatFreq l "기타")]

/-- The archetype record chosen by the rule cascade of
`_basic_analysis` (name, description, characteristics, color). -/
structure Personality where
  name : String
  description : String
  characteristics : List String
  color : String
deriving DecidableEq

/-- The rule cascade of `PersonalityAnalyzer._basic_analysis`
(personality_analyzer.py lines 212-259): first matching rule wins;
returns the archetype record and its confidence. -/
def basic_personality (features : List (String × ℚ)) : Personality × ℚ :=
  let education_ratio := fget features "교육_ratio" 0
  let snack_ratio := fget features "간식_ratio" 0
  let toy_ratio := fget features "장난감_ratio" 0
  let entertainment_ratio := fget features "오락_ratio" 0
  let total_purchases := fget features "total_purchases" 0
  if 40 < education_ratio then
    (⟨"학습지향형", "교육적 가치를 중시하며 체계적인 소비 패턴을 보입니다",
      ["교육 비중 높음", "학습에 관심이 많음", "신중한 선택"], "#4F46E5"⟩,
     min (9 / 10) (education_ratio / 50))
  else if 50 < snack_ratio then
    (⟨"즐거움추구형", "즐거운 경험을 중시하며 감정적 만족을 추구합니다",
      ["즐거움 추구", "감정적 선택", "즉흥적 구매"], "#F59E0B"⟩,
     min (8 / 10) (snack_ratio / 60))
  else if 30 < toy_ratio ∨ 25 < entertainment_ratio then
    (⟨"창의적 탐험형", "새로운 것을 탐험하고 창의적 활동을 좋아합니다",
      ["창의성 중시", "호기심 많음", "다양한 경험"], "#10B981"⟩,
     min (8 / 10) (max toy_ratio entertainment_ratio / 40))
  else if total_purchases < 5 then
    (⟨"신중한 선택형", "신중하고 계획적인 소비 패턴을 보입니다",
      ["신중한 결정", "계획적 소비", "절제된 구매"], "#8B5CF6"⟩, 7 / 10)
  else
    (⟨"균형잡힌 성향", "다양한 영역에 균형잡힌 관심을 보입니다",
      ["균형잡힌 소비", "다양한 관심사", "적응력 높음"], "#06B6D4"⟩, 3 / 4)

/-- The profile dict returned by `predict_personality` /
`_basic_analysis` (the free-form `detailed_analysis` sub-dict is not
modelled: on the only path that would build it the source raises
instead, see `basic_analysis`). -/
structure Profile where
  personality_type : String
  description : String
  characteristics : List String
  confidence : ℚ
  color : String
  recommendations : List String
deriving DecidableEq

/-- The designated profile for empty input (`_basic_analysis`,
personality_analyzer.py lines 199-208). -/
def insufficientDataProfile : Profile :=
  ⟨"데이터 부족", "충분한 데이터가 수집되면 성향 분석을 제공합니다.", [],
   0, "#6B7280", ["더 많은 구매 데이터가 필요합니다."]⟩

/-- `PersonalityAnalyzer._basic_analysis` (personality_analyzer.py lines
197-289).  For a non-empty dataframe the source computes features, picks
the archetype (`basic_personality`) and recommendations, and then, while
building the `detailed_analysis` dict of the result, calls
`self._analyze_spending_pattern`, `self._analyze_time_pattern`,
`self._calculate_age_appropriateness` and `self._calculate_growth_trend`
— none of which is defined anywhere on the class, so the attribute
lookup raises `AttributeError` before any result is returned.  The
embedding models that raise as `Except.error`. -/
def basic_analysis (l : List Event) : Except String Profile :=
  if l = [] then Except.ok insufficientDataProfile
  else Except.error
    "AttributeError: PersonalityAnalyzer object has no attribute _analyze_spending_pattern"

/-- `PersonalityAnalyzer.predict_personality` (personality_analyzer.py
lines 161-167) in the state where loading the persisted model fails
(missing or corrupt artifacts): the bare `except` silently diverts to
`_basic_analysis`. -/
def predict_personality_no_model (l : List Event) : Except String Profile :=
  basic_analysis l

/-- One alert dict as fused by `PurchaseAnalyzer.get_ml_enhanced_alerts`
(analytics.py): only the `type` key is inspected by the fusion logic;
`title`/`message` carry the display text (source alerts from the anomaly
path carry further free-form keys that the fusion never reads). -/
structure Alert where
  type : String
  title : String
  message : String
deriving DecidableEq

/-- `priority_order.get(type, 0)` with `priority_order = {'alert': 4,
'warning': 3, 'success': 2, 'info': 1}` (analytics.py line 322). -/
def alertPriority (a : Alert) : ℕ :=
  if a.type == "alert" then 4 else if a.type == "warning" then 3
  else if a.type == "success" then 2 else if a.type == "info" then 1 else 0

/-- The fusion the body of `PurchaseAnalyzer.get_ml_enhanced_alerts` was
written to perform (analytics.py lines 317-332): concatenate the basic
metric alerts, the anomaly-derived alerts and the personality-conditioned
alerts, stable sort by priority descending, keep at most 8.  The source
method never reaches this code — see `get_ml_enhanced_alerts` below — so
this helper stands for the dead fusion logic only. -/
def fuseAlerts (basicAlerts anomalyAlerts personalityAlerts :
    List Alert) : List Alert :=
  let allAlerts := basicAlerts ++ anomalyAlerts ++ personalityAlerts
  (sortBy (fun x y => decide (alertPriority y ≤ alertPriority x)) allAlerts).take 8

/-- `PurchaseAnalyzer.get_ml_enhanced_alerts` (analytics.py lines
309-332) as it actually behaves: its first statement (line 312) is
`basic_alerts = self.generate_smart_alerts()`, and `generate_smart_alerts`
is defined nowhere on the class (only `generate_alerts(metrics)` exists),
so the attribute lookup raises `AttributeError` on every call, before any
alert is collected or fused.  The embedding models that raise as
`Except.error`; the dataframe argument mirrors `self.df`. -/
def get_ml_enhanced_alerts (_df : List Event) : Except String (List Alert) :=
  Except.error
    "AttributeError: PurchaseAnalyzer object has no attribute generate_smart_alerts"

/-! Helper lemmas shared by several claim theorems. -/

/-- The key schema of a per-window feature dict, in insertion order. -/
def periodFeatureKeys : List String :=
  ["total_spent", "total_purchases", "avg_amount", "time_variance",
   "weekday_variance", "avg_interval", "min_interval", "price_variance",
   "price_range", "impulse_score", "unique_items", "unique_categories",
   "간식_ratio", "오락_ratio", "장난감_ratio", "교육_ratio", "기타_ratio"]

/-- The metrics compared by `_calculate_change_features` (line 167). -/
def keyMetricNames : List String :=
  ["total_spent", "total_purchases", "avg_amount", "time_variance",
   "avg_interval", "price_variance", "impulse_score"]

/-- The fixed category list of the source (line 158 etc.). -/
def categoryNames : List String := ["간식", "오락", "장난감", "교육", "기타"]

theorem periodFeatures_keys (l : List Event) :
    (periodFeatures l).map Prod.fst = periodFeatureKeys := by
  unfold periodFeatures
  split <;> rfl

theorem fget_append (a b : List (String × ℚ)) (k : String) (d : ℚ)
    (h : k ∉ a.map Prod.fst) : fget (a ++ b) k d = fget b k d := by
  induction a with
  | nil => rfl
  | cons p rest ih =>
      simp only [List.map_cons, List.mem_cons, not_or] at h
      have hne : (p.1 == k) = false := by
        simp only [beq_eq_false_iff_ne]
        exact fun hpk => h.1 (hpk ▸ rfl)
      simp only [List.cons_append, fget]
      rw [if_neg (by simp [hne])]
      exact ih h.2

theorem totalSpent_nil : totalSpent [] = 0 := rfl

theorem fget_periodFeatures_total_spent (l : List Event) (h : l ≠ []) :
    fget (periodFeatures l) "total_spent" 0 = totalSpent l := by
  unfold periodFeatures
  rw [if_neg h]
  rfl

/-- The three cases of the percentage-change formula. -/
theorem changeVal_spec (r h : ℚ) :
    (h ≠ 0 → changeVal r h = (r - h) / h * 100) ∧
    (h = 0 → 0 < r → changeVal r h = 100) ∧
    (h = 0 → r = 0 → changeVal r h = 0) := by
  refine ⟨fun hne => ?_, fun h0 hr => ?_, fun h0 hr => ?_⟩
  · simp [changeVal, hne]
  · simp [changeVal, h0, hr]
  · simp [changeVal, h0, hr]

/-- C4: for every pair of recent and historical feature maps,
`_calculate_change_features` computes, per comparable metric, the
relative percentage change `(recent - historical) / historical * 100`
when the baseline is nonzero, `100` for growth from a zero baseline, and
`0` when both are zero; and per category the raw percentage-point delta
`recent_ratio - historical_ratio`. -/
theorem c4_change_features (recent historical : List (String × ℚ)) :
    (∀ m ∈ keyMetricNames,
      (fget historical m 0 ≠ 0 →
        fget (changeFeatures recent historical) (m ++ "_change") 0
          = (fget recent m 0 - fget historical m 0) / fget historical m 0 * 100) ∧
      (fget historical m 0 = 0 → 0 < fget recent m 0 →
        fget (changeFeatures recent historical) (m ++ "_change") 0 = 100) ∧
      (fget historical m 0 = 0 → fget recent m 0 = 0 →
        fget (changeFeatures recent historical) (m ++ "_change") 0 = 0)) ∧
    (∀ c ∈ categoryNames,
      fget (changeFeatures recent historical) (c ++ "_shift") 0
        = fget recent (c ++ "_ratio") 0 - fget historical (c ++ "_ratio") 0) := by
  constructor
  · intro m hm
    fin_cases hm
    · exact changeVal_spec (fget recent "total_spent" 0) (fget historical "total_spent" 0)
    · exact changeVal_spec (fget recent "total_purchases" 0) (fget historical "total_purchases" 0)
    · exact changeVal_spec (fget recent "avg_amount" 0) (fget historical "avg_amount" 0)
    · exact changeVal_spec (fget recent "time_variance" 0) (fget historical "time_variance" 0)
    · exact changeVal_spec (fget recent "avg_interval" 0) (fget historical "avg_interval" 0)
    · exact changeVal_spec (fget recent "price_variance" 0) (fget historical "price_variance" 0)
    · exact changeVal_spec (fget recent "impulse_score" 0) (fget historical "impulse_score" 0)
  · intro c hc
    fin_cases hc <;> rfl

/-- Witness for C4 at a concrete pair of feature maps. -/
theorem c4_change_features_witness :
    fget (changeFeatures [("total_spent", 5)] [("total_spent", 2)])
      ("total_spent" ++ "_change") 0
      = ((5 : ℚ) - 2) / 2 * 100 ∧
    fget (changeFeatures [("total_spent", 5)] [("total_spent", 2)])
      ("간식" ++ "_shift") 0
      = fget [(("total_spent" : String), (5 : ℚ))] ("간식" ++ "_ratio") 0
        - fget [(("total_spent" : String), (2 : ℚ))] ("간식" ++ "_ratio") 0 := by
  constructor
  · exact ((c4_change_features [("total_spent", 5)] [("total_spent", 2)]).1
      "total_spent" (by decide)).1 (by norm_num [fget])
  · exact (c4_change_features [("total_spent", 5)] [("total_spent", 2)]).2
      "간식" (by decide)

theorem findingGE_total (a b : Finding) :
    findingGE a b = true ∨ findingGE b a = true := by
  simp only [findingGE, decide_eq_true_eq]
  exact keyLE_total (findingKey b) (findingKey a)

theorem findingGE_trans (a b c : Finding) (h1 : findingGE a b = true)
    (h2 : findingGE b c = true) : findingGE a c = true := by
  simp only [findingGE, decide_eq_true_eq] at *
  exact keyLE_trans (findingKey c) (findingKey b) (findingKey a) h2 h1

/-- C5: `_deduplicate_and_prioritize` returns a truncation (to at most 5
elements) of a permutation of its input that is sorted by severity rank
descending with ties broken by confidence descending; apart from that
truncation nothing is removed or rewritten — there is no cross-type
identity deduplication. -/
theorem c5_deduplicate_and_prioritize (anomalies : List Finding) :
    ∃ s : List Finding,
      List.Perm anomalies s ∧
      s.Pairwise (fun a b => keyLE (findingKey b) (findingKey a)) ∧
      deduplicate_and_prioritize anomalies = s.take 5 ∧
      (deduplicate_and_prioritize anomalies).length ≤ 5 ∧
      (∀ f ∈ deduplicate_and_prioritize anomalies, f ∈ anomalies) := by
  refine ⟨sortBy findingGE anomalies, (sortBy_perm findingGE anomalies).symm, ?_, ?_, ?_, ?_⟩
  · exact (sortBy_pairwise findingGE findingGE_total findingGE_trans anomalies).imp
      (fun h => by simpa [findingGE] using h)
  · unfold deduplicate_and_prioritize
    split
    · rename_i h
      subst h
      rfl
    · rfl
  · unfold deduplicate_and_prioritize
    split
    · simp
    · exact (List.length_take_le 5 _)
  · intro f hf
    unfold deduplicate_and_prioritize at hf
    split at hf
    · simp at hf
    · have hs : f ∈ sortBy findingGE anomalies :=
        List.mem_of_mem_take hf
      exact (sortBy_perm findingGE anomalies).mem_iff.mp hs

/-- C6: the claimed fusion contract never executes: the first statement
of `get_ml_enhanced_alerts` (analytics.py line 312) calls
`self.generate_smart_alerts()`, a method defined nowhere on the class,
so every invocation raises `AttributeError` before any concatenation,
sort or truncation happens (code bug).  The fusion the method was
written to perform (lines 317-332, embedded as `fuseAlerts`) would
satisfy the claimed contract: concatenation of the three sources,
stable sort by severity rank descending (within each rank class the
output order equals the input order), truncation to at most 8, and in
the output every `alert` item precedes every `warning` item, which
precede `info` items. -/
theorem c6_fusion_attribute_error :
    (∀ df : List Event,
      get_ml_enhanced_alerts df
        = Except.error
            "AttributeError: PurchaseAnalyzer object has no attribute generate_smart_alerts") ∧
    (∀ basicAlerts anomalyAlerts personalityAlerts : List Alert,
      ∃ s : List Alert,
        List.Perm (basicAlerts ++ anomalyAlerts ++ personalityAlerts) s ∧
        s.Pairwise (fun x y => alertPriority y ≤ alertPriority x) ∧
        (∀ k : ℕ, s.filter (fun x => alertPriority x == k)
          = (basicAlerts ++ anomalyAlerts ++ personalityAlerts).filter
              (fun x => alertPriority x == k)) ∧
        fuseAlerts basicAlerts anomalyAlerts personalityAlerts = s.take 8 ∧
        (fuseAlerts basicAlerts anomalyAlerts personalityAlerts).length
          = min (basicAlerts ++ anomalyAlerts ++ personalityAlerts).length 8 ∧
        (fuseAlerts basicAlerts anomalyAlerts personalityAlerts).Pairwise
          (fun x y => alertPriority y ≤ alertPriority x)) := by
  refine ⟨fun df => rfl, fun basicAlerts anomalyAlerts personalityAlerts => ?_⟩
  set le : Alert → Alert → Bool :=
    fun x y => decide (alertPriority y ≤ alertPriority x) with hle
  have htot : ∀ a b, le a b = true ∨ le b a = true := by
    intro a b
    simp only [hle, decide_eq_true_eq]
    omega
  have htrans : ∀ a b c, le a b = true → le b c = true → le a c = true := by
    intro a b c h1 h2
    simp only [hle, decide_eq_true_eq] at *
    omega
  refine ⟨sortBy le (basicAlerts ++ anomalyAlerts ++ personalityAlerts),
    (sortBy_perm le _).symm, ?_, ?_, rfl, ?_, ?_⟩
  · exact (sortBy_pairwise le htot htrans _).imp
      (fun h => by simpa [hle] using h)
  · intro k
    refine sortBy_filter le (fun x => alertPriority x == k) ?_ _
    intro a b ha hb
    simp only [beq_iff_eq] at ha hb
    simp [hle, ha, hb]
  · unfold fuseAlerts
    rw [List.length_take, (sortBy_perm le _).length_eq]
    omega
  · unfold fuseAlerts
    exact ((sortBy_pairwise le htot htrans _).sublist (List.take_sublist 8 _)).imp
      (fun h => by simpa [hle] using h)

theorem map_fst_singleton (k : String) (v : ℚ) :
    List.map Prod.fst [(k, v)] = [k] := rfl

/-- C10: when every event is older than `now - window_days`, the recent
window is empty and `extract_behavioral_features` returns exactly the
neutral-default feature map — the same map it returns for the empty
list — so the historical events contribute nothing. -/
theorem c10_stale_events_default (l : List Event) (now w : ℚ)
    (hne : l ≠ []) (hold : ∀ e ∈ l, e.timestamp < now - w * 24) :
    extract_behavioral_features l now w = defaultBehavioralFeatures ∧
    extract_behavioral_features [] now w = defaultBehavioralFeatures := by
  constructor
  · have hr : recentOf l now w = [] := by
      rw [recentOf, List.filter_eq_nil_iff]
      intro e he
      simp only [decide_eq_true_eq, not_le]
      exact hold e he
    unfold extract_behavioral_features
    rw [if_neg hne]
    simp [hr]
  · rfl

/-- Witness for C10: one stale event, a week-long window, a clock far in
the future. -/
theorem c10_stale_events_default_witness :
    extract_behavioral_features [⟨"a", "간식", 1, 1, 0⟩] 1000 7
      = defaultBehavioralFeatures := by
  refine (c10_stale_events_default [⟨"a", "간식", 1, 1, 0⟩] 1000 7
    (by simp) ?_).1
  intro e he
  rcases List.mem_singleton.mp he with rfl
  norm_num

/-- C1 counterexample: the claim that every produced feature map carries
the full fixed key schema (change and shift keys included) fails on an
input whose recent window is non-empty while its historical window is
empty: there `total_spent_change` is absent, although it belongs to the
schema of `_get_default_behavioral_features`. -/
theorem c1_counterexample :
    "total_spent_change" ∈ defaultBehavioralFeatures.map Prod.fst ∧
    "total_spent_change" ∉
      (extract_behavioral_features [⟨"a", "간식", 1, 1, 999⟩] 1000 7).map
        Prod.fst := by
  constructor
  · decide
  · have hl : ([⟨"a", "간식", 1, 1, 999⟩] : List Event) ≠ [] := by simp
    have hrec : recentOf [⟨"a", "간식", 1, 1, 999⟩] 1000 7
        = [⟨"a", "간식", 1, 1, 999⟩] := by
      rw [recentOf, List.filter_eq_self]
      intro e he
      rcases List.mem_singleton.mp he with rfl
      norm_num
    have hh : histOf [⟨"a", "간식", 1, 1, 999⟩] 1000 7 = [] := by
      rw [histOf, List.filter_eq_nil_iff]
      intro e he
      rcases List.mem_singleton.mp he with rfl
      norm_num
    unfold extract_behavioral_features
    rw [if_neg hl]
    simp only [hrec, hh]
    simp only [if_neg (List.cons_ne_nil _ _), List.map_append,
      periodFeatures_keys]
    decide

/-- C1 (amended): the key schema of `extract_behavioral_features` is the
full default schema whenever the input is empty, the recent window is
empty, or the historical window is non-empty (in the last case as a
permutation: the insertion order differs from the default map); but when
the recent window is non-empty and the historical window is empty, the
map holds only the 17 per-window keys plus `data_availability`, and all
`*_change` / `*_shift` keys are absent. -/
theorem c1_feature_key_schema (l : List Event) (now w : ℚ) :
    ((l = [] ∨ recentOf l now w = []) →
      (extract_behavioral_features l now w).map Prod.fst
        = defaultBehavioralFeatures.map Prod.fst) ∧
    (l ≠ [] → recentOf l now w ≠ [] → histOf l now w ≠ [] →
      List.Perm ((extract_behavioral_features l now w).map Prod.fst)
        (defaultBehavioralFeatures.map Prod.fst)) ∧
    (l ≠ [] → recentOf l now w ≠ [] → histOf l now w = [] →
      (extract_behavioral_features l now w).map Prod.fst
          = periodFeatureKeys ++ ["data_availability"] ∧
        "total_spent_change" ∉
          (extract_behavioral_features l now w).map Prod.fst) := by
  refine ⟨?_, ?_, ?_⟩
  · rintro (hl | hr)
    · subst hl
      rfl
    · unfold extract_behavioral_features
      split
      · rfl
      · simp [hr]
  · intro hl hr hh
    unfold extract_behavioral_features
    rw [if_neg hl]
    simp only [if_neg hr, if_neg hh]
    rw [List.map_append, List.map_append, periodFeatures_keys]
    have hck : (changeFeatures (periodFeatures (recentOf l now w))
        (periodFeatures (histOf l now w))).map Prod.fst
        = ["total_spent_change", "total_purchases_change", "avg_amount_change",
           "time_variance_change", "avg_interval_change",
           "price_variance_change", "impulse_score_change",
           "간식_shift", "오락_shift", "장난감_shift", "교육_shift",
           "기타_shift"] := rfl
    rw [hck]
    simp only [map_fst_singleton]
    decide
  · intro hl hr hh
    unfold extract_behavioral_features
    rw [if_neg hl]
    simp only [if_neg hr, hh, List.append_nil]
    constructor
    · simp only [List.map_append, periodFeatures_keys, map_fst_singleton,
        List.map_nil, List.append_nil]
      simp
    · simp only [List.map_append, periodFeatures_keys, map_fst_singleton,
        List.map_nil, List.append_nil]
      simp
      decide

/-- Witness for C1 (amended), exercising the branch where both windows
are populated: the key schema is then a permutation of the default
schema. -/
theorem c1_feature_key_schema_witness :
    List.Perm
      ((extract_behavioral_features
        [⟨"a", "간식", 1, 1, 0⟩, ⟨"b", "간식", 1, 1, 999⟩] 1000 7).map Prod.fst)
      (defaultBehavioralFeatures.map Prod.fst) := by
  refine (c1_feature_key_schema
    [⟨"a", "간식", 1, 1, 0⟩, ⟨"b", "간식", 1, 1, 999⟩] 1000 7).2.1
    (by simp) ?_ ?_
  · rw [recentOf, Ne, List.filter_eq_nil_iff]
    push_neg
    refine ⟨⟨"b", "간식", 1, 1, 999⟩, by simp, ?_⟩
    norm_num
  · rw [histOf, Ne, List.filter_eq_nil_iff]
    push_neg
    refine ⟨⟨"a", "간식", 1, 1, 0⟩, by simp, ?_⟩
    norm_num

/-- The list of definitions unfolded when evaluating the detector on
concrete inputs is long; this abbreviation of the "no anomalies" result
dict keeps the statements below readable.  It is the result literal of
`detect_anomalies` when no finding fires (lines 277-284 with empty
finding list). -/
def noAnomalyResult : DetectionResult :=
  ⟨false, 0, [], "low", "정상적인 구매 패턴을 보이고 있습니다.", []⟩

/-- C3 counterexample: `detect_anomalies` returns for the empty event
list the exact same result dict as for a non-empty list on which no rule
fires — the "insufficient data" outcome and the "no anomalies" outcome
are one and the same value, so they are conflated. -/
theorem c3_counterexample :
    detect_anomalies [] 1000 [] =
      detect_anomalies [⟨"a", "간식", 100, 1, 999⟩] 1000 [] := by
  norm_num +decide [detect_anomalies, extract_behavioral_features, recentOf,
    histOf, periodFeatures, defaultPeriodFeatures, defaultBehavioralFeatures,
    changeFeatures, changeVal, totalSpent, catRatio, countType, nuniqueNames,
    nuniqueTypes, sortByTs, sortBy, insBy, consecDiffs, qmean, qmin, qmax,
    svar, hourOf, weekdayOf, detect_rule_based_anomalies,
    categoryShiftFinding, fget, deduplicate_and_prioritize,
    calculateRiskLevel, generateSummary, generateRecommendations, recsFor,
    addRec]

/-- C3 (amended): for the empty event list `detect_anomalies` returns
the ordinary "no anomalies" result (`anomalies_detected = false`, risk
`low`, the "normal purchase pattern" summary) — there is no distinct
"insufficient data" status, so the empty-input outcome is not
distinguishable from a quiet non-empty input. -/
theorem c3_empty_input_result (t : ℚ) (mlAnomalies : List Finding)
    (hml : mlAnomalies = []) :
    detect_anomalies [] t mlAnomalies = noAnomalyResult := by
  subst hml
  norm_num +decide [detect_anomalies, extract_behavioral_features,
    detect_rule_based_anomalies, categoryShiftFinding,
    defaultBehavioralFeatures, fget, deduplicate_and_prioritize,
    calculateRiskLevel, generateSummary, generateRecommendations,
    noAnomalyResult]

/-- Witness for C3 (amended) at a concrete clock value. -/
theorem c3_empty_input_result_witness :
    detect_anomalies [] 1000 [] = noAnomalyResult :=
  c3_empty_input_result 1000 [] rfl

/-- The event list of the C7 check: spend is 45 on 교육 and 55 on 간식,
so the education spend ratio is exactly 45%. -/
def c7Events : List Event :=
  [⟨"book", "교육", 45, 1, 10⟩, ⟨"candy", "간식", 55, 1, 20⟩]

/-- C7: on an input with education ratio 45% and no persisted model, the
rule cascade of `_basic_analysis` does select the learning-oriented
archetype (`학습지향형`) with confidence `min 0.9 (45/50) = 0.9 > 0.8` —
but `predict_personality` never returns it: building the
`detailed_analysis` dict calls the undefined method
`_analyze_spending_pattern`, so the call raises `AttributeError` instead
of returning the profile (code bug). -/
theorem c7_fallback_attribute_error :
    fget (extract_features c7Events) "교육_ratio" 0 = 45 ∧
    (basic_personality (extract_features c7Events)).1.name = "학습지향형" ∧
    (basic_personality (extract_features c7Events)).2 = 9 / 10 ∧
    (9 / 10 : ℚ) > 8 / 10 ∧
    predict_personality_no_model c7Events
      = Except.error
          "AttributeError: PersonalityAnalyzer object has no attribute _analyze_spending_pattern" := by
  have hedu : fget (extract_features c7Events) "교육_ratio" 0 = 45 := by
    norm_num +decide [extract_features, c7Events, pCatRatio, pCatFreq,
      totalSpent, countType, nuniqueNames, svar, qmean, weekdayGroupSizes,
      hourOf, weekdayOf, fget]
  refine ⟨hedu, ?_, ?_, by norm_num, rfl⟩
  · have : 40 < fget (extract_features c7Events) "교육_ratio" 0 := by
      rw [hedu]; norm_num
    unfold basic_personality
    rw [if_pos this]
  · have : 40 < fget (extract_features c7Events) "교육_ratio" 0 := by
      rw [hedu]; norm_num
    unfold basic_personality
    rw [if_pos this]
    rw [hedu]
    norm_num

/-- C8: the claim that `predict_personality` never raises on the
no-model path is contradicted by the code: for every non-empty input the
fallback `_basic_analysis` calls four methods that are defined nowhere
on the class and raises `AttributeError` (code bug).  The empty-input
half of the claim does hold: the result is the designated
"insufficient data" profile with confidence exactly 0. -/
theorem c8_fallback_raises :
    predict_personality_no_model [⟨"a", "간식", 1, 1, 0⟩]
        = Except.error
            "AttributeError: PersonalityAnalyzer object has no attribute _analyze_spending_pattern" ∧
    predict_personality_no_model [] = Except.ok insufficientDataProfile ∧
    insufficientDataProfile.confidence = 0 :=
  ⟨rfl, rfl, rfl⟩

/-- The event list of the C9 counterexample: one old cheap purchase and
two fresh expensive ones. -/
def c9Events : List Event :=
  [⟨"a", "간식", 1, 1, 0⟩, ⟨"b", "간식", 100, 1, 700⟩,
   ⟨"c", "간식", 100, 1, 701⟩]

/-- C9 counterexample: `detect_anomalies` reads the wall clock
(`datetime.now()`) both to split the windows and to stamp findings, so
two invocations on the identical event list and identical (absent) model
artifacts, made at different times, return different outputs — at hour
701 the spend spike is detected, at hour 2000 the same data yields the
default "no anomalies" result. -/
theorem c9_counterexample :
    detect_anomalies c9Events 701 [] ≠ detect_anomalies c9Events 2000 [] := by
  intro h
  have h1 : (detect_anomalies c9Events 701 []).anomalies_detected = true := by
    norm_num +decide [detect_anomalies, c9Events, extract_behavioral_features,
      recentOf, histOf, periodFeatures, defaultPeriodFeatures,
      defaultBehavioralFeatures, changeFeatures, changeVal, totalSpent,
      catRatio, countType, nuniqueNames, nuniqueTypes, sortByTs, sortBy,
      insBy, consecDiffs, qmean, qmin, qmax, svar, hourOf, weekdayOf,
      detect_rule_based_anomalies, categoryShiftFinding, fget,
      deduplicate_and_prioritize, findingGE, findingKey, keyLE, severityRank]
  have h2 : (detect_anomalies c9Events 2000 []).anomalies_detected = false := by
    norm_num +decide [detect_anomalies, c9Events, extract_behavioral_features,
      recentOf, histOf, periodFeatures, defaultPeriodFeatures,
      defaultBehavioralFeatures, changeFeatures, changeVal, totalSpent,
      catRatio, countType, nuniqueNames, nuniqueTypes, sortByTs, sortBy,
      insBy, consecDiffs, qmean, qmin, qmax, svar, hourOf, weekdayOf,
      detect_rule_based_anomalies, categoryShiftFinding, fget,
      deduplicate_and_prioritize]
  rw [h] at h1
  rw [h1] at h2
  simp at h2

/-- C9 (amended): inference is deterministic once the wall-clock reading
is fixed as an additional input — for equal event lists, equal model
artifacts and equal clock values the detector and the no-model
personality path return identical outputs; the clock (window split and
finding timestamps) is the only source of variation between repeated
calls. -/
theorem c9_determinism_fixed_clock (l : List Event) (mlAnomalies : List Finding)
    (t t' : ℚ) (h : t = t') :
    detect_anomalies l t mlAnomalies = detect_anomalies l t' mlAnomalies ∧
    predict_personality_no_model l = predict_personality_no_model l := by
  subst h
  exact ⟨rfl, rfl⟩

/-- Witness for C9 (amended) at a concrete input. -/
theorem c9_determinism_fixed_clock_witness :
    detect_anomalies c9Events 701 [] = detect_anomalies c9Events 701 [] ∧
    predict_personality_no_model c9Events = predict_personality_no_model c9Events :=
  c9_determinism_fixed_clock c9Events [] 701 701 rfl

/-! Towards C2: locating the spend-change feature and bounding how many
findings can outrank the spending-spike finding. -/

theorem fget_changeFeatures_total (r h rest : List (String × ℚ)) :
    fget (changeFeatures r h ++ rest) "total_spent_change" 0
      = changeVal (fget r "total_spent" 0) (fget h "total_spent" 0) := rfl

theorem total_spent_change_eq (l : List Event) (t : ℚ)
    (hl : l ≠ []) (hr : recentOf l t 7 ≠ []) (hh : histOf l t 7 ≠ []) :
    fget (extract_behavioral_features l t 7) "total_spent_change" 0
      = changeVal (totalSpent (recentOf l t 7)) (totalSpent (histOf l t 7)) := by
  unfold extract_behavioral_features
  rw [if_neg hl]
  simp only [if_neg hr, if_neg hh]
  rw [List.append_assoc]
  rw [fget_append _ _ _ _ (by rw [periodFeatures_keys]; decide)]
  rw [fget_changeFeatures_total]
  rw [fget_periodFeatures_total_spent _ hr, fget_periodFeatures_total_spent _ hh]

theorem findingGE_info_warning (z x : Finding) (hz : z.severity = "info")
    (hx : x.severity = "warning") : findingGE z x = false := by
  simp +decide [findingGE, findingKey, hz, hx, severityRank, keyLE]

theorem countP_ite_single_le_one (c : Prop) [Decidable c] (z : α)
    (p : α → Bool) : (if c then [z] else []).countP p ≤ 1 := by
  split
  · simp only [List.countP_cons, List.countP_nil]
    split <;> omega
  · simp

theorem countP_ite_single_info (c : Prop) [Decidable c] (z x : Finding)
    (hz : z.severity = "info") (hx : x.severity = "warning") :
    (if c then [z] else []).countP (fun y => findingGE y x) = 0 := by
  split
  · simp [List.countP_cons, findingGE_info_warning z x hz hx]
  · rfl

theorem countP_categoryShift (features : List (String × ℚ)) (t : ℚ)
    (c : String) (x : Finding) (hx : x.severity = "warning") :
    (categoryShiftFinding features t c).countP (fun y => findingGE y x) = 0 := by
  unfold categoryShiftFinding
  exact countP_ite_single_info _ _ x rfl hx

theorem countP_parts_le (p : Finding → Bool)
    (A1 A2 A3 A4 A5 A6 ML : List Finding)
    (h1 : A1.countP p ≤ 1) (h2 : A2.countP p ≤ 1) (h3 : A3.countP p = 0)
    (h4 : A4.countP p ≤ 1) (h5 : A5.countP p = 0) (h6 : A6.countP p ≤ 1)
    (hml : ML.countP p ≤ 1) :
    ((A1 ++ A2 ++ A3 ++ A4 ++ A5 ++ A6) ++ ML).countP p ≤ 5 := by
  simp only [List.countP_append]
  omega

theorem detect_anomalies_anomalies (l : List Event) (t : ℚ)
    (mlAnomalies : List Finding) :
    (detect_anomalies l t mlAnomalies).anomalies
      = deduplicate_and_prioritize
          (detect_rule_based_anomalies (extract_behavioral_features l t 7) t
            ++ mlAnomalies) := rfl

/-- C2 counterexample: with a recent-window total spend of exactly 250%
of the historical baseline (spend 5 against baseline 2, both windows
non-empty), the computed change is `(2.5 - 1) * 100 = 150%`, which does
not exceed the rule's threshold of 200, so `detect_anomalies` produces
no finding at all — in particular no `spending_spike`. -/
theorem c2_counterexample :
    totalSpent (recentOf [⟨"a", "간식", 2, 1, 0⟩, ⟨"b", "간식", 5, 1, 900⟩] 1000 7)
      = (250 / 100) *
        totalSpent (histOf [⟨"a", "간식", 2, 1, 0⟩, ⟨"b", "간식", 5, 1, 900⟩] 1000 7) ∧
    recentOf [⟨"a", "간식", 2, 1, 0⟩, ⟨"b", "간식", 5, 1, 900⟩] 1000 7 ≠ [] ∧
    histOf [⟨"a", "간식", 2, 1, 0⟩, ⟨"b", "간식", 5, 1, 900⟩] 1000 7 ≠ [] ∧
    (detect_anomalies [⟨"a", "간식", 2, 1, 0⟩, ⟨"b", "간식", 5, 1, 900⟩]
       1000 []).anomalies = [] := by
  refine ⟨?_, ?_, ?_, ?_⟩
  · norm_num +decide [recentOf, histOf, totalSpent]
  · norm_num +decide [recentOf]
  · norm_num +decide [histOf]
  · norm_num +decide [detect_anomalies, extract_behavioral_features, recentOf,
      histOf, periodFeatures, defaultPeriodFeatures, changeFeatures, changeVal,
      totalSpent, catRatio, countType, nuniqueNames, nuniqueTypes, sortByTs,
      sortBy, insBy, consecDiffs, qmean, qmin, qmax, svar, hourOf, weekdayOf,
      detect_rule_based_anomalies, categoryShiftFinding, fget,
      deduplicate_and_prioritize]

/-- C2 (amended): a recent-window total spend change of +250% over the
baseline — that is, a recent total of 350% of a positive historical
total — triggers a `spending_spike` finding of severity `warning` with
confidence `min (250/300) 1 = 5/6 ≥ 0.8`, and this finding survives the
truncation to 5 in `detect_anomalies`' output (the statistical scan can
add at most one further warning-severity finding). -/
theorem c2_spending_spike (l : List Event) (t : ℚ) (mlAnomalies : List Finding)
    (hml : mlAnomalies = [] ∨ ∃ g, mlAnomalies = [g] ∧ g.severity = "warning")
    (hpos : 0 < totalSpent (histOf l t 7))
    (heq : totalSpent (recentOf l t 7) = 7 / 2 * totalSpent (histOf l t 7)) :
    ∃ f ∈ (detect_anomalies l t mlAnomalies).anomalies,
      f.type = "spending_spike" ∧ f.severity = "warning" ∧
      f.confidence = min (250 / 300 : ℚ) 1 ∧ (4 / 5 : ℚ) ≤ f.confidence := by
  have hh : histOf l t 7 ≠ [] := by
    intro h
    rw [h, totalSpent_nil] at hpos
    exact lt_irrefl 0 hpos
  have hrpos : 0 < totalSpent (recentOf l t 7) := by
    rw [heq]
    linarith
  have hr : recentOf l t 7 ≠ [] := by
    intro h
    rw [h, totalSpent_nil] at hrpos
    exact lt_irrefl 0 hrpos
  have hl : l ≠ [] := by
    intro h
    subst h
    exact hr rfl
  have hchange :
      fget (extract_behavioral_features l t 7) "total_spent_change" 0 = 250 := by
    rw [total_spent_change_eq l t hl hr hh]
    unfold changeVal
    rw [if_pos hpos.ne', heq]
    have hne := hpos.ne'
    field_simp
    ring
  rw [detect_anomalies_anomalies]
  simp only [detect_rule_based_anomalies, hchange]
  rw [if_pos (show (200 : ℚ) < 250 by norm_num)]
  set s : Finding :=
    ⟨"spending_spike", "warning", min (250 / 300 : ℚ) 1,
      "지출이 " ++ fmt1 250 ++ "% 증가했습니다", t⟩ with hs
  refine ⟨s, ?_, rfl, rfl, rfl, by norm_num⟩
  unfold deduplicate_and_prioritize
  rw [if_neg (by simp)]
  apply mem_take_sortBy findingGE findingGE_total findingGE_trans
  · simp
  · refine countP_parts_le _ _ _ _ _ _ _ _ ?_ ?_ ?_ ?_ ?_ ?_ ?_
    · exact le_trans (List.countP_le_length _) (by simp)
    · exact countP_ite_single_le_one _ _ _
    · simp only [List.countP_append]
      rw [countP_categoryShift _ _ _ _ rfl, countP_categoryShift _ _ _ _ rfl,
        countP_categoryShift _ _ _ _ rfl, countP_categoryShift _ _ _ _ rfl,
        countP_categoryShift _ _ _ _ rfl]
    · exact countP_ite_single_le_one _ _ _
    · exact countP_ite_single_info _ _ _ rfl rfl
    · exact countP_ite_single_le_one _ _ _
    · rcases hml with h | ⟨g, hg, _⟩
      · simp [h]
      · subst hg
        exact le_trans (List.countP_le_length _) (by simp)

/-- Witness for C2 (amended): baseline spend 2, recent spend 7 = 350% of
the baseline, no persisted outlier model. -/
theorem c2_spending_spike_witness :
    ∃ f ∈ (detect_anomalies [⟨"a", "간식", 2, 1, 0⟩, ⟨"b", "간식", 7, 1, 900⟩]
        1000 []).anomalies,
      f.type = "spending_spike" ∧ f.severity = "warning" ∧
      f.confidence = min (250 / 300 : ℚ) 1 ∧ (4 / 5 : ℚ) ≤ f.confidence :=
  c2_spending_spike [⟨"a", "간식", 2, 1, 0⟩, ⟨"b", "간식", 7, 1, 900⟩] 1000 []
    (Or.inl rfl)
    (by norm_num +decide [histOf, totalSpent])
    (by norm_num +decide [recentOf, histOf, totalSpent])

end PurchaseDashboard
